import Mathlib

/-!
Shallow embedding of the credit-ledger / entitlement engine of the
scanpilot backend (files `app/api/credits.py`, `app/middleware/subscription.py`,
`app/api/webhooks.py`, `app/api/referrals.py`, `app/api/subscriptions.py`,
data model in `app/models.py`).

The relational store is a record of lists; SQLAlchemy's
`scalar_one_or_none` / `result.first()` queries become `List.find?`, ORM row
mutation becomes an id-keyed `List.map` update, `db.add` becomes a list
append.  A raised `HTTPException` aborts the request before `db.commit()`,
so the observable database state is unchanged: fallible endpoints return
`Except`, and the `.error` branch carries no store, modelling the rollback.
Python integers are `Int`; credit amounts and balances are signed in the
source (`amount` is stored negative for consumption).
-/

namespace ScanPilot

/-- `models.Plan` restricted to the fields the engine reads. -/
structure Plan where
  id : Nat
  name : String
  display_name : String
  credits_per_month : Int
deriving DecidableEq

/-- `models.Subscription` restricted to the fields the engine reads/writes. -/
structure Subscription where
  id : Nat
  user_id : Nat
  plan_id : Nat
  status : String
  credits_remaining : Int
  credits_rollover : Int
  stripe_customer_id : Option String
  stripe_subscription_id : Option String
deriving DecidableEq

/-- `models.CreditTransaction` (append-only ledger entry).  The JSON
metadata dict is modelled as an association list of string pairs. -/
structure CreditTransaction where
  user_id : Nat
  subscription_id : Nat
  amount : Int
  transaction_type : String
  description : String
  metadata_json : List (String × String)
deriving DecidableEq

/-- `models.Referral`. -/
structure Referral where
  id : Nat
  referrer_id : Nat
  referee_id : Option Nat
  referral_code : String
  status : String
  bonus_credits : Int
deriving DecidableEq

/-- The shared relational store. -/
structure Store where
  plans : List Plan
  subscriptions : List Subscription
  transactions : List CreditTransaction
  referrals : List Referral
deriving DecidableEq

/-- The `HTTPException`s the embedded endpoints can raise.  An exception
aborts the request before commit, so no store accompanies an error. -/
inductive ApiError where
  | noSubscription
  | noActiveSubscription
  | insufficientCredits (required : Int) (available : Int)
  | invalidReferralCode
  | selfReferral
  | alreadyUsedReferral
  | freePlanNotInitialized
  | planNotFound
deriving DecidableEq

namespace CreditsApi

/-- `app/api/credits.py::get_balance` response model (`schemas.CreditBalance`),
without the timestamp field. -/
structure CreditBalance where
  credits_remaining : Int
  credits_rollover : Int
  total_credits : Int
  plan_credits_per_month : Int
deriving DecidableEq

/-- `app/api/credits.py::get_balance`: reads the caller's Subscription and
Plan; raises 404 `No subscription found` when the user has no Subscription
row.  Pure read: returns no store. -/
def get_balance (user_id : Nat) (s : Store) : Except ApiError CreditBalance :=
  match s.subscriptions.find? (fun sub => sub.user_id == user_id) with
  | none => .error .noSubscription
  | some sub =>
    match s.plans.find? (fun p => p.id == sub.plan_id) with
    | none => .error .planNotFound
    | some plan =>
      .ok { credits_remaining := sub.credits_remaining
            credits_rollover := sub.credits_rollover
            total_credits := sub.credits_remaining + sub.credits_rollover
            plan_credits_per_month := plan.credits_per_month }

/-- `app/api/credits.py::consume_credits` (the internal helper used by other
endpoints).  Returns the new store plus the response dict
`(credits_consumed, credits_remaining)`.  `operation_type` is accepted but
unused by the body, as in the source.  Note: this path never loads the
Plan row — it checks and deducts on balances alone. -/
def consume_credits (user_id : Nat) (amount : Int) (operation_type : String)
    (description : String)
    (metadata : List (String × String)) (s : Store) :
    Except ApiError (Store × Int × Int) :=
  match s.subscriptions.find? (fun sub => sub.user_id == user_id) with
  | none => .error .noSubscription
  | some sub =>
    let total_available := sub.credits_remaining + sub.credits_rollover
    if total_available < amount then
      .error (.insufficientCredits amount total_available)
    else
      let sub' :=
        if sub.credits_rollover ≥ amount then
          { sub with credits_rollover := sub.credits_rollover - amount }
        else
          { sub with
            credits_rollover := 0
            credits_remaining :=
              sub.credits_remaining - (amount - sub.credits_rollover) }
      let txn : CreditTransaction :=
        { user_id := user_id
          subscription_id := sub.id
          amount := -amount
          transaction_type := "usage"
          description := description
          metadata_json := metadata }
      let s' : Store :=
        { s with
          subscriptions :=
            s.subscriptions.map (fun x => if x.id = sub.id then sub' else x)
          transactions := s.transactions ++ [txn] }
      .ok (s', amount, sub'.credits_remaining + sub'.credits_rollover)

end CreditsApi

namespace SubscriptionMiddleware

/-- `app/middleware/subscription.py::consume_credits` decorator: the credit
effect of one call through the wrapped handler for `current_user_id`.  The
Subscription×Plan join becomes the two successive `find?`s (the join yields
no row when either side is missing).  Plans with `credits_per_month == -1`
skip deduction and append no ledger entry. -/
def consume_credits (amount : Int) (operation_type : String)
    (description : Option String) (current_user_id : Nat) (s : Store) :
    Except ApiError Store :=
  match s.subscriptions.find? (fun sub => sub.user_id == current_user_id) with
  | none => .error .noActiveSubscription
  | some sub =>
    match s.plans.find? (fun p => p.id == sub.plan_id) with
    | none => .error .noActiveSubscription
    | some plan =>
      if plan.credits_per_month = -1 then
        .ok s
      else
        let total_available := sub.credits_remaining + sub.credits_rollover
        if total_available < amount then
          .error (.insufficientCredits amount total_available)
        else
          let sub' :=
            if sub.credits_rollover ≥ amount then
              { sub with credits_rollover := sub.credits_rollover - amount }
            else
              { sub with
                credits_rollover := 0
                credits_remaining :=
                  sub.credits_remaining - (amount - sub.credits_rollover) }
          let txn : CreditTransaction :=
            { user_id := current_user_id
              subscription_id := sub.id
              amount := -amount
              transaction_type := "usage"
              description := description.getD (operation_type ++ " operation")
              metadata_json := [("operation_type", operation_type)] }
          .ok { s with
                subscriptions :=
                  s.subscriptions.map (fun x => if x.id = sub.id then sub' else x)
                transactions := s.transactions ++ [txn] }

end SubscriptionMiddleware

namespace Webhooks

/-- The fields of a Stripe invoice object that
`handle_payment_succeeded` reads. -/
structure Invoice where
  id : String
  customer : String
  subscription : Option String
deriving DecidableEq

/-- `app/api/webhooks.py::handle_payment_succeeded`: the renewal handler for
`invoice.payment_succeeded`.  Missing subscription id on the invoice, or an
unknown subscription, is a silent no-op; a missing Plan row makes
`scalar_one` raise, so nothing commits and the store is unchanged.
Otherwise: roll unused `credits_remaining` (when positive) into
`credits_rollover` capped per plan name, reset `credits_remaining` to the
plan allowance, and append one renewal ledger entry. -/
def handle_payment_succeeded (invoice : Invoice) (s : Store) : Store :=
  match invoice.subscription with
  | none => s
  | some sid =>
    match s.subscriptions.find?
        (fun sub => sub.stripe_subscription_id == some sid) with
    | none => s
    | some sub =>
      match s.plans.find? (fun p => p.id == sub.plan_id) with
      | none => s
      | some plan =>
        let rollover_limit : Int :=
          if plan.name = "pro" then 100 else if plan.name = "team" then 500 else 0
        let sub1 :=
          if sub.credits_remaining > 0 then
            { sub with
              credits_rollover := min sub.credits_remaining rollover_limit }
          else sub
        let sub2 := { sub1 with credits_remaining := plan.credits_per_month }
        let txn : CreditTransaction :=
          { user_id := sub.user_id
            subscription_id := sub.id
            amount := plan.credits_per_month
            transaction_type :=
              if sub2.credits_rollover > (0 : Int) then "rollover" else "purchase"
            description := "Monthly credit renewal - " ++ plan.display_name
            metadata_json := [("invoice_id", invoice.id)] }
        { s with
          subscriptions :=
            s.subscriptions.map (fun x => if x.id = sub.id then sub2 else x)
          transactions := s.transactions ++ [txn] }

end Webhooks

namespace Subscriptions

/-- `app/api/subscriptions.py::get_my_subscription`: returns the caller's
Subscription, auto-creating a free-plan one (status `active`,
`credits_remaining` = free allowance, rollover at its column default 0) when
none exists.  `new_sub_id` is the primary key the insert would allocate. -/
def get_my_subscription (user_id : Nat) (new_sub_id : Nat) (s : Store) :
    Except ApiError (Store × Subscription) :=
  match s.subscriptions.find? (fun sub => sub.user_id == user_id) with
  | some sub =>
    match s.plans.find? (fun p => p.id == sub.plan_id) with
    | none => .error .planNotFound
    | some _ => .ok (s, sub)
  | none =>
    match s.plans.find? (fun p => p.name == "free") with
    | none => .error .freePlanNotInitialized
    | some free_plan =>
      let sub : Subscription :=
        { id := new_sub_id
          user_id := user_id
          plan_id := free_plan.id
          status := "active"
          credits_remaining := free_plan.credits_per_month
          credits_rollover := 0
          stripe_customer_id := none
          stripe_subscription_id := none }
      .ok ({ s with subscriptions := s.subscriptions ++ [sub] }, sub)

end Subscriptions

namespace Referrals

/-- Python's `code.upper()`: uppercase every character.  Written with a
structural `List.map` over the characters (extensionally the same as
`String.toUpper`) so that concrete witnesses can evaluate it. -/
def strUpper (s : String) : String := ⟨s.data.map Char.toUpper⟩

/-- Response dict of `apply_referral_code`. -/
structure ApplyReferralResult where
  message : String
  credits_awarded : Int
  referrer_bonus : Int
deriving DecidableEq

/-- `app/api/referrals.py::apply_referral_code`: redeem referral code
`code` for `current_user_id`.  Rejections (unknown code, self-referral,
already used a code) raise before any mutation.  On success a new Referral
row (status `completed`, bonus 50) is added; the referee grant (+50, bonus
ledger entry) happens only if the redeemer has a Subscription; the referrer
grant (+500, bonus entry) and the flip of both rows' status to `rewarded`
happen only if the referrer has a Subscription.  Everything commits as one
transaction at the end.  `new_referral_id` is the primary key the insert
would allocate; `current_user_email` only feeds a description string. -/
def apply_referral_code (code : String) (current_user_id : Nat)
    (current_user_email : String) (new_referral_id : Nat) (s : Store) :
    Except ApiError (Store × ApplyReferralResult) :=
  match s.referrals.find? (fun r => r.referral_code == Referrals.strUpper code) with
  | none => .error .invalidReferralCode
  | some referral =>
    if referral.referrer_id = current_user_id then
      .error .selfReferral
    else if (s.referrals.find?
        (fun r => r.referee_id == some current_user_id)).isSome then
      .error .alreadyUsedReferral
    else
      let new_referral : Referral :=
        { id := new_referral_id
          referrer_id := referral.referrer_id
          referee_id := some current_user_id
          referral_code := Referrals.strUpper code
          status := "completed"
          bonus_credits := 50 }
      let s1 : Store := { s with referrals := s.referrals ++ [new_referral] }
      let s2 : Store :=
        match s1.subscriptions.find?
            (fun sub => sub.user_id == current_user_id) with
        | none => s1
        | some referee_subscription =>
          let t1 : CreditTransaction :=
            { user_id := current_user_id
              subscription_id := referee_subscription.id
              amount := 50
              transaction_type := "bonus"
              description := "Referral bonus from code " ++ code
              metadata_json := [("referral_code", code), ("type", "referee_bonus")] }
          { s1 with
            subscriptions := s1.subscriptions.map (fun x =>
              if x.id = referee_subscription.id then
                { referee_subscription with
                  credits_remaining := referee_subscription.credits_remaining + 50 }
              else x)
            transactions := s1.transactions ++ [t1] }
      let s3 : Store :=
        match s2.subscriptions.find?
            (fun sub => sub.user_id == referral.referrer_id) with
        | none => s2
        | some referrer_subscription =>
          let t2 : CreditTransaction :=
            { user_id := referral.referrer_id
              subscription_id := referrer_subscription.id
              amount := 500
              transaction_type := "bonus"
              description := "Referral reward - " ++ current_user_email ++ " signed up"
              metadata_json := [("referee_id", toString current_user_id), ("type", "referrer_bonus")] }
          { s2 with
            subscriptions := s2.subscriptions.map (fun x =>
              if x.id = referrer_subscription.id then
                { referrer_subscription with
                  credits_remaining := referrer_subscription.credits_remaining + 500 }
              else x)
            referrals := s2.referrals.map (fun r =>
              if r.id = referral.id ∨ r.id = new_referral_id then
                { r with status := "rewarded" }
              else r)
            transactions := s2.transactions ++ [t2] }
      .ok (s3, { message := "Referral code applied successfully!"
                 credits_awarded := 50
                 referrer_bonus := 500 })

end Referrals

/-! Concrete fixtures used by counterexamples and witnesses. -/

/-- A `pro` plan row: 500 credits/month (rollover cap 100 in the reconciler). -/
def proPlan : Plan := ⟨1, "pro", "Creator", 500⟩

/-- A `free` plan row: 20 credits/month. -/
def freePlan : Plan := ⟨2, "free", "Explorer", 20⟩

/-- An `enterprise` plan row: unlimited allowance (`credits_per_month = -1`). -/
def unlimitedPlan : Plan := ⟨3, "enterprise", "Organization", -1⟩

/-- Pro subscription of user 1 with 80 credits left, bound to Stripe
subscription `sub_1`. -/
def c1Sub : Subscription := ⟨1, 1, 1, "active", 80, 0, some "cus_1", some "sub_1"⟩

/-- Store for the renewal-replay scenario. -/
def c1Store : Store := ⟨[proPlan], [c1Sub], [], []⟩

/-- One concrete `invoice.payment_succeeded` event for `sub_1`. -/
def c1Invoice : Webhooks.Invoice := ⟨"in_1", "cus_1", some "sub_1"⟩

/-- The store after the event is applied once. -/
def c1Once : Store := Webhooks.handle_payment_succeeded c1Invoice c1Store

/-- The store after the identical event is applied a second time. -/
def c1Twice : Store := Webhooks.handle_payment_succeeded c1Invoice c1Once

/-- Pro subscription of user 1 with 0 credits remaining and 37 rollover. -/
def c10Sub : Subscription := ⟨1, 1, 1, "active", 0, 37, some "cus_1", some "sub_1"⟩

/-- Store for the rollover-preservation scenario. -/
def c10Store : Store := ⟨[proPlan], [c10Sub], [], []⟩

/-- Enterprise subscription of user 7 holding 100 credits. -/
def c4Sub : Subscription := ⟨1, 7, 3, "active", 100, 0, none, none⟩

/-- Store for the unlimited-plan consumption counterexample. -/
def c4Store : Store := ⟨[unlimitedPlan], [c4Sub], [], []⟩

/-- Store with a free plan but no Subscription row for any user. -/
def c7Store : Store := ⟨[freePlan], [], [], []⟩

/-- Free subscription of user 1 with 15 credits, for witnesses. -/
def wSub : Subscription := ⟨1, 1, 2, "active", 15, 0, none, none⟩

/-- Witness store: free plan, user 1 with 15/0 balance. -/
def wStore : Store := ⟨[freePlan], [wSub], [], []⟩

/-- Referral fixtures: user 10 owns code `AB12CD34`; users 10 and 20 both
hold free subscriptions. -/
def refCodeRow : Referral := ⟨1, 10, none, "AB12CD34", "pending", 50⟩

/-- Subscription of referrer (user 10). -/
def refASub : Subscription := ⟨1, 10, 2, "active", 100, 0, none, none⟩

/-- Subscription of redeemer (user 20). -/
def refBSub : Subscription := ⟨2, 20, 2, "active", 30, 0, none, none⟩

/-- Store for a successful redemption witness. -/
def refStore : Store := ⟨[freePlan], [refASub, refBSub], [], [refCodeRow]⟩

/-- Store where user 20 has already redeemed some code. -/
def refUsedStore : Store :=
  ⟨[freePlan], [refASub, refBSub], [],
   [refCodeRow, ⟨2, 30, some 20, "ZZ99XX11", "rewarded", 50⟩]⟩

/-- Store where the redeemer (user 20) has no Subscription row. -/
def refNoSubStore : Store := ⟨[freePlan], [refASub], [], [refCodeRow]⟩

/-! Generic lemmas about `List.find?` composed with the id-keyed row
update `l.map (fun y => if key y = k then w else y)` that models an ORM
row mutation. -/

/-- Updating the row that `find?` located (the unique row keyed `k`)
makes `find?` return the updated row. -/
theorem find?_map_update_hit {α : Type} (key : α → Nat) (p : α → Bool)
    (l : List α) (x w : α) (k : Nat)
    (hfind : l.find? p = some x)
    (huniq : ∀ y ∈ l, key y = k → y = x)
    (hxk : key x = k) (hw : p w = true) :
    (l.map (fun y => if key y = k then w else y)).find? p = some w := by
  induction l with
  | nil => simp at hfind
  | cons a t ih =>
    by_cases ha : p a = true
    · rw [List.find?_cons_of_pos _ ha] at hfind
      injection hfind with hx
      subst hx
      simp only [List.map_cons]
      rw [if_pos hxk, List.find?_cons_of_pos _ hw]
    · rw [List.find?_cons_of_neg _ ha] at hfind
      have hak : key a ≠ k := by
        intro hk
        have hax := huniq a (List.mem_cons_self a t) hk
        subst hax
        exact ha (List.find?_some hfind)
      simp only [List.map_cons]
      rw [if_neg hak, List.find?_cons_of_neg _ ha]
      exact ih hfind (fun y hy => huniq y (List.mem_cons_of_mem a hy))

/-- Updating a row other than the one `find?` located leaves the `find?`
result unchanged, provided the updated value does not satisfy `p`. -/
theorem find?_map_update_miss {α : Type} (key : α → Nat) (p : α → Bool)
    (l : List α) (x w : α) (k : Nat)
    (hfind : l.find? p = some x)
    (hw : p w = false) (hxk : key x ≠ k) :
    (l.map (fun y => if key y = k then w else y)).find? p = some x := by
  induction l with
  | nil => simp at hfind
  | cons a t ih =>
    by_cases ha : p a = true
    · rw [List.find?_cons_of_pos _ ha] at hfind
      injection hfind with hx
      subst hx
      simp only [List.map_cons]
      rw [if_neg hxk, List.find?_cons_of_pos _ ha]
    · rw [List.find?_cons_of_neg _ ha] at hfind
      simp only [List.map_cons]
      by_cases hak : key a = k
      · rw [if_pos hak, List.find?_cons_of_neg _ (by simp [hw])]
        exact ih hfind
      · rw [if_neg hak, List.find?_cons_of_neg _ ha]
        exact ih hfind

/-- If no row satisfies `p`, an id-keyed update whose new value does not
satisfy `p` keeps `find?` empty. -/
theorem find?_map_update_none {α : Type} (key : α → Nat) (p : α → Bool)
    (l : List α) (w : α) (k : Nat)
    (hfind : l.find? p = none) (hw : p w = false) :
    (l.map (fun y => if key y = k then w else y)).find? p = none := by
  rw [List.find?_eq_none] at hfind ⊢
  intro y hy
  obtain ⟨z, hz, rfl⟩ := List.mem_map.mp hy
  by_cases hzk : key z = k
  · simp only [if_pos hzk]
    simp [hw]
  · simp only [if_neg hzk]
    exact hfind z hz

/-- A member that is the unique row with its key is what `find?` by that
key returns. -/
theorem find?_key_of_mem {α : Type} (key : α → Nat) (l : List α) (x : α)
    (hmem : x ∈ l) (huniq : ∀ y ∈ l, key y = key x → y = x) :
    l.find? (fun y => key y == key x) = some x := by
  induction l with
  | nil => simp at hmem
  | cons a t ih =>
    by_cases hak : key a = key x
    · have hax := huniq a (List.mem_cons_self a t) hak
      subst hax
      rw [List.find?_cons_of_pos _ (by simp)]
    · rw [List.find?_cons_of_neg _ (by simp [hak])]
      rcases List.mem_cons.mp hmem with h | h
      · subst h
        exact absurd rfl hak
      · exact ih h (fun y hy => huniq y (List.mem_cons_of_mem a hy))

/-- Key-uniqueness of the row keyed `m` survives an update of the row
keyed `k ≠ m`. -/
theorem uniq_of_map_update {α : Type} (key : α → Nat) (l : List α)
    (k : Nat) (w : α) (m : Nat) (x : α)
    (huniq : ∀ y ∈ l, key y = m → y = x)
    (hwk : key w = k) (hkm : k ≠ m) :
    ∀ y ∈ l.map (fun y => if key y = k then w else y), key y = m → y = x := by
  intro y hy hym
  obtain ⟨z, hz, rfl⟩ := List.mem_map.mp hy
  by_cases hzk : key z = k
  · rw [if_pos hzk] at hym
    rw [if_pos hzk]
    exact absurd (hwk ▸ hym) hkm
  · rw [if_neg hzk] at hym
    rw [if_neg hzk]
    exact huniq z hz hym

/-! Claim theorems. -/

/-- C1: `handle_payment_succeeded` is NOT idempotent.  On a pro
subscription with 80 credits remaining, applying the same invoice event
once yields balance 500/80 with one renewal ledger entry; replaying the
identical event yields 500/100 (the allowance itself is rolled over up to
the cap) and a second, duplicate renewal ledger entry carrying the same
invoice id.  This evaluates the code at the failing input of the
idempotency requirement. -/
theorem C1_renewal_replay_double_applies :
    c1Once.subscriptions.map
        (fun x => (x.credits_remaining, x.credits_rollover)) = [(500, 80)] ∧
    c1Twice.subscriptions.map
        (fun x => (x.credits_remaining, x.credits_rollover)) = [(500, 100)] ∧
    c1Once.transactions.length = 1 ∧
    c1Twice.transactions.length = 2 ∧
    (c1Twice.transactions.filter
        (fun t => t.metadata_json == [("invoice_id", "in_1")])).length = 2 ∧
    c1Twice ≠ c1Once := by
  decide

/-- C2: when `credits_remaining + credits_rollover < amount`, both
consumption paths fail with the insufficient-credits error carrying the
required and the available amount, and — the error aborting the request
before `db.commit()` — leave the store unmutated (no `.ok` store is
produced; the caller keeps `s`). -/
theorem C2_insufficient_credits_fails_without_mutation
    (user_id : Nat) (amount : Int) (operation_type description : String)
    (metadata : List (String × String)) (s : Store)
    (sub : Subscription) (plan : Plan)
    (hsub : s.subscriptions.find? (fun x => x.user_id == user_id) = some sub)
    (hplan : s.plans.find? (fun p => p.id == sub.plan_id) = some plan)
    (hmetered : plan.credits_per_month ≠ -1)
    (hshort : sub.credits_remaining + sub.credits_rollover < amount) :
    CreditsApi.consume_credits user_id amount operation_type description metadata s =
      .error (.insufficientCredits amount
        (sub.credits_remaining + sub.credits_rollover)) ∧
    SubscriptionMiddleware.consume_credits amount operation_type
        (some description) user_id s =
      .error (.insufficientCredits amount
        (sub.credits_remaining + sub.credits_rollover)) := by
  constructor
  · simp only [CreditsApi.consume_credits, hsub]
    rw [if_pos hshort]
  · simp only [SubscriptionMiddleware.consume_credits, hsub, hplan]
    rw [if_neg hmetered, if_pos hshort]

/-- C2 witness: free-plan user with balance 15/0 attempting cost 25. -/
theorem C2_witness :
    CreditsApi.consume_credits 1 25 "file_processing" "d" [] wStore =
      .error (.insufficientCredits 25 15) ∧
    SubscriptionMiddleware.consume_credits 25 "file_processing"
        (some "d") 1 wStore =
      .error (.insufficientCredits 25 15) := by
  have h := C2_insufficient_credits_fails_without_mutation
    1 25 "file_processing" "d" [] wStore wSub freePlan
    (by decide) (by decide) (by decide) (by decide)
  exact h

/-- C3: a consumption of `amount ≤ credits_remaining + credits_rollover`
deducts rollover first (`credits_rollover` drops to
`max (credits_rollover - amount) 0`, `credits_remaining` covers only the
remainder), deducts exactly `amount` in total, leaves both fields
nonnegative, and appends exactly one `usage` ledger entry of `-amount` —
on both consumption paths. -/
theorem C3_deduction_rollover_first_exact_total
    (user_id : Nat) (amount : Int) (operation_type description : String)
    (metadata : List (String × String)) (s : Store)
    (sub : Subscription) (plan : Plan)
    (hsub : s.subscriptions.find? (fun x => x.user_id == user_id) = some sub)
    (hplan : s.plans.find? (fun p => p.id == sub.plan_id) = some plan)
    (hmetered : plan.credits_per_month ≠ -1)
    (hrem : 0 ≤ sub.credits_remaining) (hroll : 0 ≤ sub.credits_rollover)
    (hamt : 0 ≤ amount)
    (hle : amount ≤ sub.credits_remaining + sub.credits_rollover) :
    ∃ sub' : Subscription,
      sub'.credits_rollover = max (sub.credits_rollover - amount) 0 ∧
      sub'.credits_remaining
        = sub.credits_remaining - max (amount - sub.credits_rollover) 0 ∧
      sub'.credits_remaining + sub'.credits_rollover
        = sub.credits_remaining + sub.credits_rollover - amount ∧
      0 ≤ sub'.credits_remaining ∧ 0 ≤ sub'.credits_rollover ∧
      sub'.id = sub.id ∧ sub'.user_id = sub.user_id ∧
      CreditsApi.consume_credits user_id amount operation_type description metadata s =
        .ok ({ s with
               subscriptions := s.subscriptions.map
                 (fun x => if x.id = sub.id then sub' else x)
               transactions := s.transactions ++
                 [{ user_id := user_id
                    subscription_id := sub.id
                    amount := -amount
                    transaction_type := "usage"
                    description := description
                    metadata_json := metadata }] },
             amount, sub'.credits_remaining + sub'.credits_rollover) ∧
      SubscriptionMiddleware.consume_credits amount operation_type
          (some description) user_id s =
        .ok { s with
              subscriptions := s.subscriptions.map
                (fun x => if x.id = sub.id then sub' else x)
              transactions := s.transactions ++
                [{ user_id := user_id
                   subscription_id := sub.id
                   amount := -amount
                   transaction_type := "usage"
                   description := description
                   metadata_json := [("operation_type", operation_type)] }] } := by
    refine ⟨if sub.credits_rollover ≥ amount then
        { sub with credits_rollover := sub.credits_rollover - amount }
      else
        { sub with
          credits_rollover := 0
          credits_remaining :=
            sub.credits_remaining - (amount - sub.credits_rollover) },
      ?_, ?_, ?_, ?_, ?_, ?_, ?_, ?_, ?_⟩
    · by_cases hcase : sub.credits_rollover ≥ amount
      · rw [if_pos hcase]; dsimp only; omega
      · rw [if_neg hcase]; dsimp only; omega
    · by_cases hcase : sub.credits_rollover ≥ amount
      · rw [if_pos hcase]; dsimp only; omega
      · rw [if_neg hcase]; dsimp only; omega
    · by_cases hcase : sub.credits_rollover ≥ amount
      · rw [if_pos hcase]; dsimp only; omega
      · rw [if_neg hcase]; dsimp only; omega
    · by_cases hcase : sub.credits_rollover ≥ amount
      · rw [if_pos hcase]; dsimp only; omega
      · rw [if_neg hcase]; dsimp only; omega
    · by_cases hcase : sub.credits_rollover ≥ amount
      · rw [if_pos hcase]; dsimp only; omega
      · simp only [if_neg hcase]; omega
    · by_cases hcase : sub.credits_rollover ≥ amount
      · rw [if_pos hcase]
      · rw [if_neg hcase]
    · by_cases hcase : sub.credits_rollover ≥ amount
      · rw [if_pos hcase]
      · rw [if_neg hcase]
    · simp only [CreditsApi.consume_credits, hsub]
      rw [if_neg (by omega)]
    · simp only [SubscriptionMiddleware.consume_credits, hsub, hplan]
      rw [if_neg hmetered, if_neg (by omega)]
      rfl

/-- C3 witness: free user with balance 15/0 consumes 5 → 10/0, one `-5`
usage entry. -/
theorem C3_witness :
    ∃ sub' : Subscription,
      sub'.credits_rollover = max ((0 : Int) - 5) 0 ∧
      sub'.credits_remaining = 15 - max ((5 : Int) - 0) 0 ∧
      sub'.credits_remaining + sub'.credits_rollover = 15 + 0 - 5 ∧
      0 ≤ sub'.credits_remaining ∧ 0 ≤ sub'.credits_rollover ∧
      sub'.id = wSub.id ∧ sub'.user_id = wSub.user_id ∧
      CreditsApi.consume_credits 1 5 "file_processing" "d" [] wStore =
        .ok ({ wStore with
               subscriptions := wStore.subscriptions.map
                 (fun x => if x.id = wSub.id then sub' else x)
               transactions := wStore.transactions ++
                 [{ user_id := 1
                    subscription_id := wSub.id
                    amount := -5
                    transaction_type := "usage"
                    description := "d"
                    metadata_json := [] }] },
             5, sub'.credits_remaining + sub'.credits_rollover) ∧
      SubscriptionMiddleware.consume_credits 5 "file_processing"
          (some "d") 1 wStore =
        .ok { wStore with
              subscriptions := wStore.subscriptions.map
                (fun x => if x.id = wSub.id then sub' else x)
              transactions := wStore.transactions ++
                [{ user_id := 1
                   subscription_id := wSub.id
                   amount := -5
                   transaction_type := "usage"
                   description := "d"
                   metadata_json := [("operation_type", "file_processing")] }] } := by
  exact C3_deduction_rollover_first_exact_total
    1 5 "file_processing" "d" [] wStore wSub freePlan
    (by decide) (by decide) (by decide) (by decide) (by decide)
    (by decide) (by decide)

/-- C8: a `pro` subscription (allowance 500) holding 80 credits that
receives a renewal event ends with `credits_remaining = 500` and
`credits_rollover = 80` (80 is below the pro cap of 100). -/
theorem C8_pro_renewal_with_80_remaining
    (invoice : Webhooks.Invoice) (sid : String) (s : Store)
    (sub : Subscription) (plan : Plan)
    (hinv : invoice.subscription = some sid)
    (hsub : s.subscriptions.find?
      (fun x => x.stripe_subscription_id == some sid) = some sub)
    (hplan : s.plans.find? (fun p => p.id == sub.plan_id) = some plan)
    (hname : plan.name = "pro")
    (hallow : plan.credits_per_month = 500)
    (hrem : sub.credits_remaining = 80)
    (huniq : ∀ y ∈ s.subscriptions, y.id = sub.id → y = sub) :
    (Webhooks.handle_payment_succeeded invoice s).subscriptions.find?
        (fun y => y.id == sub.id) =
      some { sub with credits_remaining := 500, credits_rollover := 80 } := by
  simp only [Webhooks.handle_payment_succeeded, hinv, hsub, hplan, hname,
    hallow, hrem]
  exact find?_map_update_hit Subscription.id
    (fun y => y.id == sub.id) s.subscriptions sub
    { sub with credits_remaining := 500, credits_rollover := 80 } sub.id
    (find?_key_of_mem Subscription.id s.subscriptions sub
      (List.mem_of_find?_eq_some hsub) huniq)
    huniq rfl (by simp)

/-- C8 witness: the concrete pro store of the C1 fixtures, evaluated
through the theorem. -/
theorem C8_witness :
    (Webhooks.handle_payment_succeeded c1Invoice c1Store).subscriptions.find?
        (fun y => y.id == c1Sub.id) =
      some { c1Sub with credits_remaining := 500, credits_rollover := 80 } :=
  C8_pro_renewal_with_80_remaining c1Invoice "sub_1" c1Store c1Sub proPlan
    (by decide) (by decide) (by decide) (by decide) (by decide) (by decide)
    (by decide)

/-- C10: a renewal applied to a subscription with `credits_remaining = 0`
leaves `credits_rollover` untouched (the `if credits_remaining > 0` guard
skips the rollover assignment), only resetting the allowance. -/
theorem C10_renewal_preserves_rollover_at_zero_remaining
    (invoice : Webhooks.Invoice) (sid : String) (s : Store)
    (sub : Subscription) (plan : Plan)
    (hinv : invoice.subscription = some sid)
    (hsub : s.subscriptions.find?
      (fun x => x.stripe_subscription_id == some sid) = some sub)
    (hplan : s.plans.find? (fun p => p.id == sub.plan_id) = some plan)
    (hrem : sub.credits_remaining = 0)
    (huniq : ∀ y ∈ s.subscriptions, y.id = sub.id → y = sub) :
    (Webhooks.handle_payment_succeeded invoice s).subscriptions.find?
        (fun y => y.id == sub.id) =
      some { sub with credits_remaining := plan.credits_per_month } ∧
    ({ sub with credits_remaining := plan.credits_per_month }
      : Subscription).credits_rollover = sub.credits_rollover := by
  refine ⟨?_, rfl⟩
  simp only [Webhooks.handle_payment_succeeded, hinv, hsub, hplan, hrem]
  exact find?_map_update_hit Subscription.id
    (fun y => y.id == sub.id) s.subscriptions sub
    { sub with credits_remaining := plan.credits_per_month } sub.id
    (find?_key_of_mem Subscription.id s.subscriptions sub
      (List.mem_of_find?_eq_some hsub) huniq)
    huniq rfl (by simp)

/-- C10 witness: pro subscription with 0 remaining and 37 rollover keeps
the 37 across a renewal. -/
theorem C10_witness :
    (Webhooks.handle_payment_succeeded c1Invoice c10Store).subscriptions.find?
        (fun y => y.id == c10Sub.id) =
      some { c10Sub with credits_remaining := proPlan.credits_per_month } ∧
    ({ c10Sub with credits_remaining := proPlan.credits_per_month }
      : Subscription).credits_rollover = c10Sub.credits_rollover :=
  C10_renewal_preserves_rollover_at_zero_remaining c1Invoice "sub_1" c10Store
    c10Sub proPlan (by decide) (by decide) (by decide) (by decide) (by decide)

/-- C4 counterexample: user 7 is on the enterprise plan with
`credits_per_month = -1`, yet the internal consume path
(`app/api/credits.py::consume_credits`) — which never loads the Plan —
deducts 5 credits (100 → 95) and appends a `usage` ledger entry.  The
claim that no consumption path of the engine meters unlimited plans is
therefore false. -/
theorem C4_counterexample_internal_path_meters_unlimited :
    (c4Store.subscriptions.find? (fun x => x.user_id == 7) = some c4Sub) ∧
    (c4Store.plans.find? (fun p => p.id == c4Sub.plan_id) = some unlimitedPlan) ∧
    unlimitedPlan.credits_per_month = -1 ∧
    CreditsApi.consume_credits 7 5 "file_processing" "d" [] c4Store =
      .ok (⟨[unlimitedPlan], [⟨1, 7, 3, "active", 95, 0, none, none⟩],
            [⟨7, 1, -5, "usage", "d", []⟩], []⟩, 5, 95) :=
  ⟨rfl, rfl, rfl, rfl⟩

/-- C4 (amended): only the decorator path
(`app/middleware/subscription.py::consume_credits`) checks
`credits_per_month == -1`; there, an unlimited plan skips deduction
entirely and records no ledger entry — the store is returned unchanged.
The internal consume function does not consult the plan and deducts
normally (see the counterexample). -/
theorem C4_amended_decorator_skips_unlimited
    (amount : Int) (operation_type : String) (description : Option String)
    (current_user_id : Nat) (s : Store) (sub : Subscription) (plan : Plan)
    (hsub : s.subscriptions.find?
      (fun x => x.user_id == current_user_id) = some sub)
    (hplan : s.plans.find? (fun p => p.id == sub.plan_id) = some plan)
    (hunlimited : plan.credits_per_month = -1) :
    SubscriptionMiddleware.consume_credits amount operation_type description
      current_user_id s = .ok s := by
  simp only [SubscriptionMiddleware.consume_credits, hsub, hplan]
  rw [if_pos hunlimited]

/-- C4 witness: enterprise user 7 consuming 5 through the decorator path
leaves the store untouched. -/
theorem C4_witness :
    SubscriptionMiddleware.consume_credits 5 "file_processing" none 7 c4Store =
      .ok c4Store :=
  C4_amended_decorator_skips_unlimited 5 "file_processing" none 7 c4Store
    c4Sub unlimitedPlan (by decide) (by decide) (by decide)

/-- C7 counterexample: in a store whose free plan exists but where no
Subscription row exists for user 9, `get_balance` does not auto-provision
— it fails with the 404 `No subscription found` error. -/
theorem C7_counterexample_get_balance_fails_without_subscription :
    (c7Store.plans.find? (fun p => p.name == "free")).isSome ∧
    c7Store.subscriptions = [] ∧
    CreditsApi.get_balance 9 c7Store = .error .noSubscription :=
  ⟨rfl, rfl, rfl⟩

/-- C7 (amended): `get_balance` fails with a not-found error when the
user has no Subscription; the lazy auto-provision lives in
`get_my_subscription`, which creates exactly one free-plan Subscription
(initialized to the free allowance) when none exists, and creates nothing
— returning the store unchanged — when one already exists. -/
theorem C7_amended_provisioning_in_get_my_subscription
    (user_id new_sub_id : Nat) (s : Store) :
    (s.subscriptions.find? (fun x => x.user_id == user_id) = none →
      CreditsApi.get_balance user_id s = .error .noSubscription) ∧
    (∀ free_plan : Plan,
      s.subscriptions.find? (fun x => x.user_id == user_id) = none →
      s.plans.find? (fun p => p.name == "free") = some free_plan →
      Subscriptions.get_my_subscription user_id new_sub_id s =
        .ok ({ s with subscriptions := s.subscriptions ++
                 [⟨new_sub_id, user_id, free_plan.id, "active",
                   free_plan.credits_per_month, 0, none, none⟩] },
             ⟨new_sub_id, user_id, free_plan.id, "active",
               free_plan.credits_per_month, 0, none, none⟩)) ∧
    (∀ (sub : Subscription) (plan : Plan),
      s.subscriptions.find? (fun x => x.user_id == user_id) = some sub →
      s.plans.find? (fun p => p.id == sub.plan_id) = some plan →
      Subscriptions.get_my_subscription user_id new_sub_id s = .ok (s, sub)) := by
  refine ⟨?_, ?_, ?_⟩
  · intro hnone
    simp only [CreditsApi.get_balance, hnone]
  · intro free_plan hnone hfree
    simp only [Subscriptions.get_my_subscription, hnone, hfree]
  · intro sub plan hsub hplan
    simp only [Subscriptions.get_my_subscription, hsub, hplan]

/-- C7 witness: with no subscription for user 9, `get_balance` 404s and
`get_my_subscription` provisions the free subscription; for user 1, who
has one, `get_my_subscription` changes nothing. -/
theorem C7_witness :
    CreditsApi.get_balance 9 c7Store = .error .noSubscription ∧
    Subscriptions.get_my_subscription 9 5 c7Store =
      .ok ({ c7Store with subscriptions := c7Store.subscriptions ++
               [⟨5, 9, freePlan.id, "active",
                 freePlan.credits_per_month, 0, none, none⟩] },
           ⟨5, 9, freePlan.id, "active",
             freePlan.credits_per_month, 0, none, none⟩) ∧
    Subscriptions.get_my_subscription 1 5 wStore = .ok (wStore, wSub) :=
  ⟨(C7_amended_provisioning_in_get_my_subscription 9 5 c7Store).1 (by decide),
   (C7_amended_provisioning_in_get_my_subscription 9 5 c7Store).2.1
     freePlan (by decide) (by decide),
   (C7_amended_provisioning_in_get_my_subscription 1 5 wStore).2.2
     wSub freePlan (by decide) (by decide)⟩

/-- C6: a redeem call is rejected with `selfReferral` when the code's
referrer is the redeemer, and with `alreadyUsedReferral` when the redeemer
already appears as referee on any prior referral.  Both rejections raise
before any mutation, so — the exception aborting the request before
commit — no subscription, referral, or ledger state changes (the error
carries no store; the caller keeps `s`). -/
theorem C6_self_and_duplicate_redemption_rejected
    (code : String) (current_user_id : Nat) (email : String)
    (new_referral_id : Nat) (s : Store) (referral : Referral)
    (hcode : s.referrals.find?
      (fun r => r.referral_code == Referrals.strUpper code) = some referral) :
    (referral.referrer_id = current_user_id →
      Referrals.apply_referral_code code current_user_id email new_referral_id s
        = .error .selfReferral) ∧
    (∀ prior : Referral, referral.referrer_id ≠ current_user_id →
      s.referrals.find? (fun r => r.referee_id == some current_user_id)
        = some prior →
      Referrals.apply_referral_code code current_user_id email new_referral_id s
        = .error .alreadyUsedReferral) := by
  constructor
  · intro hself
    simp only [Referrals.apply_referral_code, hcode]
    rw [if_pos hself]
  · intro prior hne hused
    simp only [Referrals.apply_referral_code, hcode, hused]
    rw [if_neg hne]
    simp

/-- C6 witness: user 10 redeeming their own code `AB12CD34` is rejected;
user 20, already a referee on a prior row, is rejected on a second code. -/
theorem C6_witness :
    Referrals.apply_referral_code "AB12CD34" 10 "a@example.com" 9 refStore
      = .error .selfReferral ∧
    Referrals.apply_referral_code "AB12CD34" 20 "b@example.com" 9 refUsedStore
      = .error .alreadyUsedReferral :=
  ⟨(C6_self_and_duplicate_redemption_rejected "AB12CD34" 10 "a@example.com" 9
      refStore refCodeRow (by decide)).1 rfl,
   (C6_self_and_duplicate_redemption_rejected "AB12CD34" 20 "b@example.com" 9
      refUsedStore refCodeRow (by decide)).2
     ⟨2, 30, some 20, "ZZ99XX11", "rewarded", 50⟩ (by decide) (by decide)⟩

/-- C9: when every validity check passes but the redeemer has no
Subscription row, `apply_referral_code` still creates and commits the new
redemption Referral row and returns success reporting 50 credits awarded,
while the redeemer receives no credits (they still have no Subscription
row) and no ledger entry is appended for them. -/
theorem C9_success_reported_without_redeemer_subscription
    (code : String) (current_user_id : Nat) (email : String)
    (new_referral_id : Nat) (s : Store) (referral : Referral)
    (hcode : s.referrals.find?
      (fun r => r.referral_code == Referrals.strUpper code) = some referral)
    (hne : referral.referrer_id ≠ current_user_id)
    (hnew : s.referrals.find?
      (fun r => r.referee_id == some current_user_id) = none)
    (hnosub : s.subscriptions.find?
      (fun x => x.user_id == current_user_id) = none) :
    ∃ s' : Store,
      Referrals.apply_referral_code code current_user_id email new_referral_id s
        = .ok (s', ⟨"Referral code applied successfully!", 50, 500⟩) ∧
      (∃ r ∈ s'.referrals, r.id = new_referral_id ∧
        r.referrer_id = referral.referrer_id ∧
        r.referee_id = some current_user_id ∧
        r.referral_code = Referrals.strUpper code ∧ r.bonus_credits = 50) ∧
      s'.subscriptions.find? (fun x => x.user_id == current_user_id) = none ∧
      s'.transactions.filter (fun t => t.user_id == current_user_id)
        = s.transactions.filter (fun t => t.user_id == current_user_id) := by
  simp only [Referrals.apply_referral_code, hcode]
  rw [if_neg hne]
  simp only [hnew, Option.isSome_none, Bool.false_eq_true, if_false, hnosub]
  cases hfr : s.subscriptions.find?
      (fun sub => sub.user_id == referral.referrer_id) with
  | none =>
    refine ⟨_, rfl, ⟨⟨new_referral_id, referral.referrer_id,
      some current_user_id, Referrals.strUpper code, "completed", 50⟩,
      List.mem_append_right _ (List.mem_singleton.mpr rfl),
      rfl, rfl, rfl, rfl, rfl⟩, hnosub, rfl⟩
  | some referrer_subscription =>
    have huserA : referrer_subscription.user_id = referral.referrer_id := by
      have := List.find?_some hfr
      simpa using this
    refine ⟨_, rfl, ?_, ?_, ?_⟩
    · refine ⟨⟨new_referral_id, referral.referrer_id,
        some current_user_id, Referrals.strUpper code, "rewarded", 50⟩, ?_, rfl, rfl, rfl, rfl, rfl⟩
      have hmem : (⟨new_referral_id, referral.referrer_id,
          some current_user_id, Referrals.strUpper code, "completed", 50⟩ : Referral)
          ∈ s.referrals ++ [⟨new_referral_id, referral.referrer_id,
            some current_user_id, Referrals.strUpper code, "completed", 50⟩] :=
        List.mem_append_right _ (List.mem_singleton.mpr rfl)
      have himg := List.mem_map_of_mem (fun r : Referral =>
        if r.id = referral.id ∨ r.id = new_referral_id then
          { r with status := "rewarded" } else r) hmem
      simpa using himg
    · exact find?_map_update_none Subscription.id _ s.subscriptions
        { referrer_subscription with
          credits_remaining := referrer_subscription.credits_remaining + 500 }
        referrer_subscription.id hnosub
        (by
          have : (referrer_subscription.user_id == current_user_id) = false := by
            rw [huserA]
            exact beq_eq_false_iff_ne.mpr (fun h => hne h)
          simpa using this)
    · rw [List.filter_append]
      have : ((⟨referral.referrer_id, referrer_subscription.id, 500, "bonus",
          "Referral reward - " ++ email ++ " signed up",
          [("referee_id", toString current_user_id),
           ("type", "referrer_bonus")]⟩ : CreditTransaction).user_id
          == current_user_id) = false :=
        beq_eq_false_iff_ne.mpr (fun h => hne h)
      simp [this]

/-- C9 witness: redeeming `AB12CD34` as user 20, who has no Subscription
row, still commits the redemption row and reports 50 credits awarded. -/
theorem C9_witness :
    ∃ s' : Store,
      Referrals.apply_referral_code "AB12CD34" 20 "b@example.com" 2 refNoSubStore
        = .ok (s', ⟨"Referral code applied successfully!", 50, 500⟩) ∧
      (∃ r ∈ s'.referrals, r.id = 2 ∧
        r.referrer_id = refCodeRow.referrer_id ∧
        r.referee_id = some 20 ∧
        r.referral_code = Referrals.strUpper "AB12CD34" ∧ r.bonus_credits = 50) ∧
      s'.subscriptions.find? (fun x => x.user_id == 20) = none ∧
      s'.transactions.filter (fun t => t.user_id == 20)
        = refNoSubStore.transactions.filter (fun t => t.user_id == 20) :=
  C9_success_reported_without_redeemer_subscription "AB12CD34" 20
    "b@example.com" 2 refNoSubStore refCodeRow
    (by decide) (by decide) (by decide) (by decide)

/-- C5: a valid redemption by an eligible redeemer (code found, not
self-referral, redeemer not yet a referee, both parties holding their —
id-unique — Subscription rows) grants the referee exactly 50 credits with
one `bonus` ledger entry, grants the referrer exactly 500 credits with one
`bonus` ledger entry, and flips both the original code row and the new
redemption row to status `rewarded`.  The whole effect is the single
store `s'` committed by the one `db.commit()` at the end — the `Except`
result is either this full store or an error, so no half-applied reward is
ever observable. -/
theorem C5_successful_redemption_rewards_both_parties
    (code : String) (current_user_id : Nat) (email : String)
    (new_referral_id : Nat) (s : Store) (referral : Referral)
    (referee_sub referrer_sub : Subscription)
    (hcode : s.referrals.find?
      (fun r => r.referral_code == Referrals.strUpper code) = some referral)
    (hne : referral.referrer_id ≠ current_user_id)
    (hnew : s.referrals.find?
      (fun r => r.referee_id == some current_user_id) = none)
    (hbsub : s.subscriptions.find?
      (fun x => x.user_id == current_user_id) = some referee_sub)
    (hasub : s.subscriptions.find?
      (fun x => x.user_id == referral.referrer_id) = some referrer_sub)
    (hub : ∀ y ∈ s.subscriptions, y.id = referee_sub.id → y = referee_sub)
    (hua : ∀ y ∈ s.subscriptions, y.id = referrer_sub.id → y = referrer_sub) :
    ∃ s' : Store,
      Referrals.apply_referral_code code current_user_id email new_referral_id s
        = .ok (s', ⟨"Referral code applied successfully!", 50, 500⟩) ∧
      s'.subscriptions.find? (fun x => x.user_id == current_user_id)
        = some { referee_sub with
                 credits_remaining := referee_sub.credits_remaining + 50 } ∧
      s'.subscriptions.find? (fun x => x.user_id == referral.referrer_id)
        = some { referrer_sub with
                 credits_remaining := referrer_sub.credits_remaining + 500 } ∧
      s'.transactions = s.transactions ++
        [⟨current_user_id, referee_sub.id, 50, "bonus",
          "Referral bonus from code " ++ code,
          [("referral_code", code), ("type", "referee_bonus")]⟩] ++
        [⟨referral.referrer_id, referrer_sub.id, 500, "bonus",
          "Referral reward - " ++ email ++ " signed up",
          [("referee_id", toString current_user_id),
           ("type", "referrer_bonus")]⟩] ∧
      (∀ r ∈ s'.referrals,
        (r.id = referral.id ∨ r.id = new_referral_id) → r.status = "rewarded") ∧
      { referral with status := "rewarded" } ∈ s'.referrals ∧
      (⟨new_referral_id, referral.referrer_id, some current_user_id,
        Referrals.strUpper code, "rewarded", 50⟩ : Referral) ∈ s'.referrals := by
  have huserB : referee_sub.user_id = current_user_id := by
    have := List.find?_some hbsub
    simpa using this
  have huserA : referrer_sub.user_id = referral.referrer_id := by
    have := List.find?_some hasub
    simpa using this
  have hidne : referee_sub.id ≠ referrer_sub.id := by
    intro h
    have := hub referrer_sub (List.mem_of_find?_eq_some hasub) h.symm
    apply hne
    rw [← huserA, this, huserB]
  have hqb : (referee_sub.user_id == referral.referrer_id) = false :=
    beq_eq_false_iff_ne.mpr (by rw [huserB]; exact fun h => hne h.symm)
  have hpa : (referrer_sub.user_id == current_user_id) = false :=
    beq_eq_false_iff_ne.mpr (by rw [huserA]; exact hne)
  have hstep : (s.subscriptions.map (fun x =>
      if x.id = referee_sub.id then
        { referee_sub with
          credits_remaining := referee_sub.credits_remaining + 50 }
      else x)).find? (fun sub => sub.user_id == referral.referrer_id)
        = some referrer_sub :=
    find?_map_update_miss Subscription.id _ s.subscriptions referrer_sub
      { referee_sub with
        credits_remaining := referee_sub.credits_remaining + 50 }
      referee_sub.id hasub hqb (fun h => hidne h.symm)
  simp only [Referrals.apply_referral_code, hcode]
  rw [if_neg hne]
  simp only [hnew, Option.isSome_none, Bool.false_eq_true, if_false, hbsub,
    hstep]
  refine ⟨_, rfl, ?_, ?_, ?_, ?_, ?_, ?_⟩
  · exact find?_map_update_miss Subscription.id _ _
      { referee_sub with
        credits_remaining := referee_sub.credits_remaining + 50 }
      { referrer_sub with
        credits_remaining := referrer_sub.credits_remaining + 500 }
      referrer_sub.id
      (find?_map_update_hit Subscription.id _ s.subscriptions referee_sub
        { referee_sub with
          credits_remaining := referee_sub.credits_remaining + 50 }
        referee_sub.id hbsub hub rfl (by simp [huserB]))
      (by simpa using hpa) hidne
  · exact find?_map_update_hit Subscription.id _ _ referrer_sub
      { referrer_sub with
        credits_remaining := referrer_sub.credits_remaining + 500 }
      referrer_sub.id hstep
      (uniq_of_map_update Subscription.id s.subscriptions referee_sub.id
        { referee_sub with
          credits_remaining := referee_sub.credits_remaining + 50 }
        referrer_sub.id referrer_sub hua rfl hidne)
      rfl (by simp [huserA])
  · rfl
  · intro r hr hid
    obtain ⟨z, hz, rfl⟩ := List.mem_map.mp hr
    by_cases hc : z.id = referral.id ∨ z.id = new_referral_id
    · rw [if_pos hc]
    · rw [if_neg hc] at hid ⊢
      exact absurd hid hc
  · have hmem : referral ∈ s.referrals ++
        [(⟨new_referral_id, referral.referrer_id, some current_user_id,
          Referrals.strUpper code, "completed", 50⟩ : Referral)] :=
      List.mem_append_left _ (List.mem_of_find?_eq_some hcode)
    have himg := List.mem_map_of_mem (fun r : Referral =>
      if r.id = referral.id ∨ r.id = new_referral_id then
        { r with status := "rewarded" } else r) hmem
    simpa using himg
  · have hmem : (⟨new_referral_id, referral.referrer_id,
        some current_user_id, Referrals.strUpper code, "completed", 50⟩
        : Referral) ∈ s.referrals ++
        [(⟨new_referral_id, referral.referrer_id, some current_user_id,
          Referrals.strUpper code, "completed", 50⟩ : Referral)] :=
      List.mem_append_right _ (List.mem_singleton.mpr rfl)
    have himg := List.mem_map_of_mem (fun r : Referral =>
      if r.id = referral.id ∨ r.id = new_referral_id then
        { r with status := "rewarded" } else r) hmem
    simpa using himg

/-- C5 witness: user 20 redeems user 10's code `AB12CD34` in the concrete
referral store; both subscriptions exist, so user 20 gains 50, user 10
gains 500, and both rows end `rewarded`. -/
theorem C5_witness :
    ∃ s' : Store,
      Referrals.apply_referral_code "AB12CD34" 20 "b@example.com" 2 refStore
        = .ok (s', ⟨"Referral code applied successfully!", 50, 500⟩) ∧
      s'.subscriptions.find? (fun x => x.user_id == 20)
        = some { refBSub with
                 credits_remaining := refBSub.credits_remaining + 50 } ∧
      s'.subscriptions.find? (fun x => x.user_id == refCodeRow.referrer_id)
        = some { refASub with
                 credits_remaining := refASub.credits_remaining + 500 } ∧
      s'.transactions = refStore.transactions ++
        [⟨20, refBSub.id, 50, "bonus",
          "Referral bonus from code " ++ "AB12CD34",
          [("referral_code", "AB12CD34"), ("type", "referee_bonus")]⟩] ++
        [⟨refCodeRow.referrer_id, refASub.id, 500, "bonus",
          "Referral reward - " ++ "b@example.com" ++ " signed up",
          [("referee_id", toString 20), ("type", "referrer_bonus")]⟩] ∧
      (∀ r ∈ s'.referrals,
        (r.id = refCodeRow.id ∨ r.id = 2) → r.status = "rewarded") ∧
      { refCodeRow with status := "rewarded" } ∈ s'.referrals ∧
      (⟨2, refCodeRow.referrer_id, some 20,
        Referrals.strUpper "AB12CD34", "rewarded", 50⟩ : Referral)
        ∈ s'.referrals :=
  C5_successful_redemption_rewards_both_parties "AB12CD34" 20 "b@example.com"
    2 refStore refCodeRow refBSub refASub
    (by decide) (by decide) (by decide) (by decide) (by decide)
    (by decide) (by decide)

end ScanPilot
